import Mathlib

/-!
Shallow embedding of the Ergo-dash chat dashboard core (`src/app.py`):
the metric store reader (`load_niosh_scores`), the safety verdict
evaluator (`is_motion_safe`), the upload classifier (`is_scan_file`),
and the session state machine (`handle_chat` with its inner
`maybe_finish_and_verdict`).  Machine values coming from the
dynamically loaded score file are modelled by `PyVal`; effectful
collaborators (file system writes, the score module) are modelled by an
explicit environment.
-/

namespace ErgoDash

/-- A Python value as it can appear in the score module: the `None`
object (as an attribute value or a list element), a numeric value
(int/float, modelled as a rational), a non-numeric value on which
`float()` raises (non-numeric string, dict, ...), or a list/tuple of
values. -/
inductive PyVal where
  | none
  | num (q : ℚ)
  | nonNumeric (tag : ℕ)
  | list (xs : List PyVal)

/-- Python `v is None` for a value. -/
def PyVal.isNoneObj : PyVal → Bool
  | PyVal.none => true
  | _ => false

/-- Python `float(v)`: succeeds exactly on numeric values (in
particular `float(None)` raises). -/
def pyFloat : PyVal → Option ℚ
  | PyVal.none => Option.none
  | PyVal.num q => some q
  | PyVal.nonNumeric _ => Option.none
  | PyVal.list _ => Option.none

/-- The MetricSet: the dict returned by `load_niosh_scores`, keys `LI`,
`RWL`, `SSPP_L4L5`; `Option.none` is an absent key or a stored Python
`None` value — indistinguishable through `dict.get` (the empty dict
`\x7b\x7d` is all-`Option.none`).  A stored non-`None` value may still
be `PyVal.none` only through `some PyVal.none`, which the evaluator
treats exactly as Python treats a fetched `None`. -/
structure Scores where
  LI : Option PyVal
  RWL : Option PyVal
  SSPP_L4L5 : Option PyVal

/-- The attributes of the dynamically loaded NIOSH score module
(`getattr(mod, var, None)` is `none` when the attribute is missing). -/
structure NioshModule where
  LI : Option PyVal
  RWL : Option PyVal
  SSPP_L4L5 : Option PyVal

/-- The helper `get_item` of `load_niosh_scores`: a missing attribute
or an attribute holding `None` gives `None` (the `if v is None` check),
otherwise `v[idx] if isinstance(v, (list, tuple)) and len(v) > idx
else v` — and when the selected in-range element is itself the `None`
object, the stored dict value is that `None`, modelled as
`Option.none`. -/
def get_item (v : Option PyVal) (idx : ℕ) : Option PyVal :=
  match v with
  | Option.none => Option.none
  | some PyVal.none => Option.none
  | some (PyVal.list xs) =>
      if h : idx < xs.length then
        match xs.get ⟨idx, h⟩ with
        | PyVal.none => Option.none
        | w => some w
      else some (PyVal.list xs)
  | some w => some w

/-- The reader `load_niosh_scores(path, id)`: `source = none` models a missing file
or a load failure (both return the empty dict); otherwise each key is
read with `get_item`. -/
def load_niosh_scores (source : Option NioshModule) (idx : ℕ) : Scores :=
  match source with
  | none => ⟨none, none, none⟩
  | some m => ⟨get_item m.LI idx, get_item m.RWL idx, get_item m.SSPP_L4L5 idx⟩

/-- The evaluator `is_motion_safe(scores)`: `None` when either fetched
metric `is None` (key missing or value the `None` object); otherwise
`(float(li) <= 1.0) and (float(backN) <= 3400.0)` under Python
short-circuit evaluation, with a conversion failure caught and turned
into `None`. -/
def is_motion_safe (scores : Scores) : Option Bool :=
  match scores.LI, scores.SSPP_L4L5 with
  | some li, some backN =>
      if li.isNoneObj || backN.isNoneObj then none
      else
        match pyFloat li with
        | Option.none => none
        | some l =>
            if l ≤ 1 then
              match pyFloat backN with
              | Option.none => none
              | some b => some (decide (b ≤ 3400))
            else some false
  | _, _ => none

/-- The fixed accepted 3D-scan extension set `SCAN_EXTS`. -/
def SCAN_EXTS : List String :=
  [".obj", ".stl", ".ply", ".glb", ".gltf", ".fbx",
   ".las", ".laz", ".e57", ".xyz", ".ptx", ".pts"]

/-- The joined extension listing `", ".join(sorted(SCAN_EXTS))`, as used
in the rejection message. -/
def SCAN_EXTS_JOINED : String :=
  String.intercalate ", "
    [".e57", ".fbx", ".glb", ".gltf", ".las", ".laz",
     ".obj", ".ply", ".pts", ".ptx", ".stl", ".xyz"]

/-- Lowercase a string (Python `str.lower()` restricted to ASCII, which
covers every comparison the program makes). -/
def pyLower (s : String) : String := String.mk (s.toList.map Char.toLower)

/-- Split a character list on the slash separator. -/
def splitOnSlash : List Char → List (List Char)
  | [] => [[]]
  | c :: cs =>
      let r := splitOnSlash cs
      if c = '/' then [] :: r
      else
        match r with
        | [] => [[c]]
        | h :: t => (c :: h) :: t

/-- The final path component, as `pathlib.PurePath(...).name`: split on
slash, drop empty and bare-dot components, take the last. -/
def pathFinalName (f : String) : String :=
  String.mk (((splitOnSlash f.toList).filter (fun c => c ≠ [] ∧ c ≠ ['.'])).getLastD [])

/-- Index of the last dot in a list of characters, if any. -/
def lastDotIdx (cs : List Char) : Option ℕ :=
  ((List.range cs.length).filter (fun i => cs.getD i ' ' = '.')).getLast?

/-- The suffix rule of `pathlib.PurePath(...).suffix`: the part of the final name from its
last dot, provided that dot is neither the first nor the last
character; otherwise the empty string. -/
def pathSuffix (f : String) : String :=
  let n := (pathFinalName f).toList
  match lastDotIdx n with
  | some i => if 0 < i ∧ i < n.length - 1 then String.mk (n.drop i) else ""
  | none => ""

/-- The classifier `is_scan_file(filename)`: case-insensitive suffix membership in
`SCAN_EXTS`. -/
def is_scan_file (filename : String) : Bool :=
  pyLower (pathSuffix filename) ∈ SCAN_EXTS

/-- Python whitespace (the class `\s` and the default `str.strip`
set). -/
def isPySpace (c : Char) : Bool :=
  c = ' ' ∨ c = '\t' ∨ c = '\n' ∨ c = '\x0d' ∨ c = '\x0b' ∨ c = '\x0c'

/-- Python `str.strip()`: drop leading and trailing whitespace. -/
def pyStrip (s : String) : String :=
  String.mk (((s.toList.dropWhile isPySpace).reverse.dropWhile isPySpace).reverse)

/-- Does `pat` occur at the start of `s` (character lists)? -/
def listStartsWith : List Char → List Char → Bool
  | [], _ => true
  | _ :: _, [] => false
  | p :: ps, c :: cs => p = c && listStartsWith ps cs

/-- Case-insensitive variant: `pat` is given lowercased and each
character of `s` is lowercased before comparing. -/
def listStartsWithCI : List Char → List Char → Bool
  | [], _ => true
  | _ :: _, [] => false
  | p :: ps, c :: cs => p = c.toLower && listStartsWithCI ps cs

/-- Python `pat in s` (substring containment) on character lists. -/
def listContainsSub (pat : List Char) : List Char → Bool
  | [] => decide (pat = [])
  | c :: cs => listStartsWith pat (c :: cs) || listContainsSub pat cs

/-- Python `pat in s` on strings. -/
def strContainsSub (s pat : String) : Bool := listContainsSub pat.toList s.toList

/-- Python `s.startswith(pat)` on strings. -/
def strStartsWith (s pat : String) : Bool := listStartsWith pat.toList s.toList

/-- The part of the video regex after the command token:
`(?:\s+(.+))?$` where `.` does not match a newline and the input is
already stripped, so `$` is end-of-input.  Returns `none` on no match,
`some g` on a match with optional captured group `g`. -/
def matchAfterKeyword (cs : List Char) : Option (Option (List Char)) :=
  match cs with
  | [] => some none
  | c :: _ =>
      if isPySpace c then
        let rest := cs.dropWhile isPySpace
        if rest ≠ [] then
          if rest.contains '\n' then none else some (some rest)
        else
          match cs.getLast? with
          | some l => if l = '\n' then none else some (some [l])
          | none => none
      else none

/-- Leftmost search for
`(?:^|\s)/(?:play|video)(?:\s+(.+))?$` (IGNORECASE) over a character
list; `atBoundary` records whether the current position is the start of
the string or preceded by whitespace. -/
def searchVideoAux (atBoundary : Bool) : List Char → Option (Option (List Char))
  | [] => none
  | c :: cs =>
      let here : Option (Option (List Char)) :=
        if atBoundary then
          if listStartsWithCI "/play".toList (c :: cs) then
            matchAfterKeyword ((c :: cs).drop 5)
          else if listStartsWithCI "/video".toList (c :: cs) then
            matchAfterKeyword ((c :: cs).drop 6)
          else none
        else none
      match here with
      | some g => some g
      | none => searchVideoAux (isPySpace c) cs

/-- The search `re.search(r"(?:^|\s)/(?:play|video)(?:\s+(.+))?$", user_text,
re.IGNORECASE)` for the (already stripped) `user_text`: `none` when no
match, otherwise the optional captured path fragment. -/
def searchVideo (s : String) : Option (Option (List Char)) :=
  searchVideoAux true s.toList

/-- The configuration constant `DEFAULT_VIDEO`. -/
def DEFAULT_VIDEO : String :=
  "/assets/static_dash/generated/exp1/slowed_generated_terrain_lift_fast.mp4"

/-- Assistant acknowledgement after a successful scan upload. -/
def MSG_RECEIVED_SCAN : String := "Received 3D scan of site."

/-- Assistant rejection of an unrecognised upload. -/
def MSG_REJECT : String :=
  "Sorry, I can’t process this file type. Please upload a 3D scan in one of the following formats: "
    ++ SCAN_EXTS_JOINED

/-- The incomplete-metrics message assigned in the indeterminate branch
of `maybe_finish_and_verdict`. -/
def MSG_INCOMPLETE : String :=
  "I have both the 3D scan and task description. However, the available metrics are incomplete for a safety decision. Please ensure LI and the L5/S1 back force are present."

/-- The lifting-technique guidance message. -/
def MSG_GUIDANCE : String :=
  "Techniques for lifting boxes from hard-to-reach positions (e.g., back of pallets) \nLift with your legs, not back.\nBring box closer to body by:\n   1) step on the ledge,\n   2) straddle the box corner.\n"

/-- The safe-verdict message. -/
def MSG_SAFE : String :=
  "You can safely perform the task by following the example motion shown."

/-- The unsafe-verdict what-if suggestion message. -/
def MSG_UNSAFE : String :=
  "Posture improvement alone is not sufficient (LI > 1), conduct what-if experiments: \n   1) reduce the weight,\n   2) increasing the lift height.\n"

/-- The fixed placeholder task-parameter JSON echoed back to the user. -/
def SAMPLE_JSON : String :=
  "\n\x7b\n\"task\":                \"lift\",\n\"object_type\":   \"box\",\n\"handle_type\":  \"none\",\n\"weight_kg\":      10.0,\n\"size_m\":           [0.4, 0.4, 0.4],\n\"start_h_m\":      0.0,\n\"start_loc_m\":  [8.5, 4.0]\n\x7d\n"

/-- Assistant echo after recording a task description. -/
def msgTaskEcho (json_path : String) : String :=
  "Extracted task parameters: " ++ SAMPLE_JSON ++ "Saved to " ++ json_path

/-- The lower-weight what-if placeholder reply. -/
def MSG_LOWER_WEIGHT : String :=
  "What‑if experiment: **lower weight**.\nSimulating reduced load in NIOSH and 3DSSPP… (placeholder output)."

/-- The increase-height what-if reply. -/
def MSG_INCREASE_HEIGHT : String :=
  "What‑if experiment: **increase height** — not implemented."

/-- The hide-video confirmation reply. -/
def MSG_HIDDEN : String := "Video hidden."

/-- The filler reply for unrecognised text. -/
def MSG_FILLER : String := "…"

/-- A chat Message as stored in `chat-store`. -/
structure Msg where
  role : String
  kind : String
  content : String
  filename : Option String
deriving DecidableEq, Repr

/-- Build an assistant text message. -/
def assistantText (content : String) : Msg := ⟨"assistant", "text", content, none⟩

/-- Build a user text message. -/
def userText (content : String) : Msg := ⟨"user", "text", content, none⟩

/-- Build the user file-bubble message of an upload. -/
def userFile (filename : Option String) : Msg := ⟨"user", "file", "file", filename⟩

/-- The `scan-state` store. -/
structure ScanState where
  has_scan : Bool
  path : String
deriving DecidableEq, Repr

/-- The `task-state` store. -/
structure TaskState where
  has_task : Bool
  json_path : String
deriving DecidableEq, Repr

/-- The `show-video` store. -/
structure VideoState where
  show_ : Bool
  src : String
deriving DecidableEq, Repr

/-- The `verdict-state` store; `safe = none` is the indeterminate
value. -/
structure VerdictState where
  ready : Bool
  safe : Option Bool
deriving DecidableEq, Repr

/-- The effectful collaborators of one `handle_chat` invocation: the
MetricSet that `load_niosh_scores()` would return at verdict time, and
the results of the two durable-storage writes (`save_upload_to_disk`
and `save_task_json`), each either a returned web path or the message
of the raised exception. -/
structure Env where
  scores : Scores
  save_scan : Except String String
  save_task : Except String String

/-- The eight outputs of the `handle_chat` callback; `none` is Dash's
`no_update` for that output slot. -/
structure ChatOutputs where
  chat_store : Option (List Msg)
  chat_text : Option String
  upload_contents : Option (Option String)
  upload_filename : Option (Option String)
  show_video : Option VideoState
  scan_state : Option ScanState
  task_state : Option TaskState
  verdict_state : Option VerdictState

/-- The inner `maybe_finish_and_verdict` closure: if both flags are set,
compute the verdict from freshly loaded scores, point the big player at
`DEFAULT_VIDEO`, and append the verdict messages.  The `let` shadowing
of `msg` / `verdict_state` / `history` mirrors the source's sequential
reassignments (in particular the indeterminate branch's `msg` and
`verdict_state` assignments are overwritten before use, exactly as in
the source).  Returns (history, video_state, verdict_state). -/
def maybe_finish_and_verdict (env : Env) (scan_state : ScanState) (task_state : TaskState)
    (history : List Msg) (video_state : VideoState) (verdict_state : VerdictState) :
    List Msg × VideoState × VerdictState :=
  if scan_state.has_scan && task_state.has_task then
    let verdict := is_motion_safe env.scores
    let video_state : VideoState := ⟨true, DEFAULT_VIDEO⟩
    let msg : String :=
      match verdict with
      | none => MSG_INCOMPLETE
      | some _ => MSG_GUIDANCE
    let verdict_state : VerdictState :=
      match verdict with
      | none => ⟨true, none⟩
      | some _ => verdict_state
    let history : List Msg :=
      match verdict with
      | none => history
      | some _ => history ++ [assistantText MSG_GUIDANCE]
    let msg : String := if verdict = some true then MSG_SAFE else MSG_UNSAFE
    let verdict_state : VerdictState :=
      if verdict = some true then ⟨true, some true⟩ else ⟨true, some false⟩
    (history ++ [assistantText msg], video_state, verdict_state)
  else (history, video_state, verdict_state)

/-- Which input fired the callback (`ctx.triggered`). -/
inductive Trigger where
  | upload
  | send
deriving DecidableEq, Repr

/-- Python truthiness of `upload_filename` combined with
`is_scan_file`. -/
def acceptedUpload (upload_filename : Option String) : Bool :=
  match upload_filename with
  | some f => (decide (f ≠ "")) && is_scan_file f
  | none => false

/-- The `handle_chat` callback body (after the `ctx.triggered` guard),
translated branch by branch from the source. -/
def handle_chat (env : Env) (trigger : Trigger) (upload_contents : Option String)
    (upload_filename : Option String) (text_value : String) (history : List Msg)
    (video_state : VideoState) (scan_state : ScanState) (task_state : TaskState) :
    ChatOutputs :=
  let verdict_state : VerdictState := ⟨false, none⟩
  match trigger with
  | Trigger.upload =>
      match upload_contents with
      | none =>
          -- falls through to the final fallback return
          ⟨some history, none, none, none, none, some scan_state, some task_state, none⟩
      | some _ =>
          if acceptedUpload upload_filename then
            match env.save_scan with
            | Except.ok saved_path =>
                let scan_state : ScanState := ⟨true, saved_path⟩
                let history := history ++
                  [userFile upload_filename, assistantText MSG_RECEIVED_SCAN]
                let r := maybe_finish_and_verdict env scan_state task_state
                  history video_state verdict_state
                ⟨some r.1, none, some none, some none, some r.2.1,
                  some scan_state, some task_state, some r.2.2⟩
            | Except.error e =>
                ⟨some (history ++ [assistantText ("Failed to save upload: " ++ e)]),
                  none, some none, some none, none, some scan_state, some task_state, none⟩
          else
            ⟨some (history ++ [userFile upload_filename, assistantText MSG_REJECT]),
              none, some none, some none, none, some scan_state, some task_state, none⟩
  | Trigger.send =>
      let user_text := pyStrip text_value
      if user_text = "" then
        ⟨some history, none, none, none, none, none, none, none⟩
      else
        let history := history ++ [userText user_text]
        let lowered := pyLower user_text
        if strStartsWith lowered "task description:" then
          match env.save_task with
          | Except.ok json_path =>
              let task_state : TaskState := ⟨true, json_path⟩
              let history := history ++ [assistantText (msgTaskEcho json_path)]
              let r := maybe_finish_and_verdict env scan_state task_state
                history video_state verdict_state
              ⟨some r.1, some "", none, none, some r.2.1,
                some scan_state, some task_state, some r.2.2⟩
          | Except.error e =>
              ⟨some (history ++ [assistantText ("Could not save task description: " ++ e)]),
                some "", none, none, none, some scan_state, some task_state, none⟩
        else if strContainsSub lowered "lower weight" then
          ⟨some (history ++ [assistantText MSG_LOWER_WEIGHT]),
            some "", none, none, none, some scan_state, some task_state, none⟩
        else
          match searchVideo user_text with
          | some g =>
              let candidate := pyStrip (String.mk (g.getD []))
              let src :=
                if candidate = "" then DEFAULT_VIDEO
                else if strStartsWith candidate "/assets/" then candidate
                else if strStartsWith candidate "assets/" then "/" ++ candidate
                else "/assets/static_dash/mocap/exp1/" ++ candidate
              let video_state : VideoState := ⟨true, src⟩
              ⟨some (history ++ [assistantText ("Playing: " ++ src)]),
                some "", none, none, some video_state, some scan_state, some task_state, none⟩
          | none =>
              if strContainsSub lowered "/hide" || strContainsSub lowered "/stop" ||
                  strContainsSub lowered "hide video" || strContainsSub lowered "stop video" then
                let video_state : VideoState := ⟨false, video_state.src⟩
                ⟨some (history ++ [assistantText MSG_HIDDEN]),
                  some "", none, none, some video_state, some scan_state, some task_state, none⟩
              else if strContainsSub lowered "increase height" then
                ⟨some (history ++ [assistantText MSG_INCREASE_HEIGHT]),
                  some "", none, none, some video_state, some scan_state, some task_state, none⟩
              else
                ⟨some (history ++ [assistantText MSG_FILLER]),
                  some "", none, none, some video_state, some scan_state, some task_state, none⟩

/-- The session state: the five stores plus the two input widgets the
callback also writes. -/
structure AppState where
  history : List Msg
  chat_text : String
  upload_contents : Option String
  upload_filename : Option String
  video_state : VideoState
  scan_state : ScanState
  task_state : TaskState
  verdict_state : VerdictState

/-- Apply callback outputs to the stores, `none` meaning `no_update`. -/
def applyOutputs (st : AppState) (out : ChatOutputs) : AppState where
  history := out.chat_store.getD st.history
  chat_text := out.chat_text.getD st.chat_text
  upload_contents := out.upload_contents.getD st.upload_contents
  upload_filename := out.upload_filename.getD st.upload_filename
  video_state := out.show_video.getD st.video_state
  scan_state := out.scan_state.getD st.scan_state
  task_state := out.task_state.getD st.task_state
  verdict_state := out.verdict_state.getD st.verdict_state

/-- A session event: the user presses Send with the textarea holding
`text`, or drops a file on the upload widget. -/
inductive Event where
  | send (text : String)
  | upload (contents : String) (filename : Option String)

/-- One step of the session state machine: the event first lands in the
input widgets, then `handle_chat` fires and its outputs are applied. -/
def step (env : Env) (st : AppState) (e : Event) : AppState :=
  match e with
  | Event.send text =>
      let st := { st with chat_text := text }
      applyOutputs st (handle_chat env Trigger.send st.upload_contents st.upload_filename
        text st.history st.video_state st.scan_state st.task_state)
  | Event.upload contents filename =>
      let st := { st with upload_contents := some contents, upload_filename := filename }
      applyOutputs st (handle_chat env Trigger.upload (some contents) filename
        st.chat_text st.history st.video_state st.scan_state st.task_state)

/-- The initial session state: the declared `data` defaults of the five
stores and empty widgets. -/
def init_state : AppState where
  history := []
  chat_text := ""
  upload_contents := none
  upload_filename := none
  video_state := ⟨false, ""⟩
  scan_state := ⟨false, ""⟩
  task_state := ⟨false, ""⟩
  verdict_state := ⟨false, none⟩

/-- Run a session: fold the steps of a list of (environment, event)
pairs from a starting state. -/
def run (st : AppState) (evs : List (Env × Event)) : AppState :=
  evs.foldl (fun s p => step p.1 s p.2) st

/-- A demonstration environment: complete, in-threshold metrics and
successful storage writes. -/
def envDemo : Env :=
  ⟨⟨some (PyVal.num 1), some (PyVal.num 20), some (PyVal.num 3000)⟩,
    Except.ok "/assets/uploads/scan.glb", Except.ok "/assets/uploads/task.json"⟩

/-- A demonstration environment whose metric source is missing (empty
MetricSet), with successful storage writes. -/
def envMissing : Env :=
  ⟨⟨none, none, none⟩,
    Except.ok "/assets/uploads/scan.glb", Except.ok "/assets/uploads/task.json"⟩

/-- A demonstration session: a scan upload followed by a task
description, completing the pair. -/
def demoTrace : List (Env × Event) :=
  [(envDemo, Event.upload "data:application/octet-stream;base64,AAAA" (some "scan.glb")),
   (envDemo, Event.send "Task description: lift a 10kg box")]

/-- The same session against the missing metric source. -/
def demoTraceMissing : List (Env × Event) :=
  [(envMissing, Event.upload "data:application/octet-stream;base64,AAAA" (some "scan.glb")),
   (envMissing, Event.send "Task description: lift a 10kg box")]

/-- An environment whose durable-storage writes both fail. -/
def envWriteFail : Env :=
  ⟨⟨some (PyVal.num 1), some (PyVal.num 20), some (PyVal.num 3000)⟩,
    Except.error "No space left on device", Except.error "No space left on device"⟩

/-- The cross-check leaves everything unchanged when the flags are not
both set. -/
lemma mfv_not_fired (env : Env) (scan : ScanState) (task : TaskState)
    (hist : List Msg) (vid : VideoState) (vst : VerdictState)
    (h : (scan.has_scan && task.has_task) = false) :
    maybe_finish_and_verdict env scan task hist vid vst = (hist, vid, vst) := by
  simp [maybe_finish_and_verdict, h]

/-- When the cross-check fires, the verdict store always receives a
ready verdict with a definite boolean. -/
lemma mfv_fired_verdict (env : Env) (scan : ScanState) (task : TaskState)
    (hist : List Msg) (vid : VideoState) (vst : VerdictState)
    (h : (scan.has_scan && task.has_task) = true) :
    ∃ b, (maybe_finish_and_verdict env scan task hist vid vst).2.2 = ⟨true, some b⟩ := by
  simp only [maybe_finish_and_verdict, h, if_true]
  by_cases hv : is_motion_safe env.scores = some true
  · exact ⟨true, by simp [hv]⟩
  · exact ⟨false, by simp [hv]⟩

/-- One step of the machine: the scan and task flags are monotone, and
the verdict store is either untouched, or reset while the flag pair is
still incomplete, or set ready with a definite boolean while both flags
hold. -/
lemma step_facts (env : Env) (st : AppState) (e : Event) :
    ((step env st e).scan_state = st.scan_state ∨ (step env st e).scan_state.has_scan = true)
  ∧ ((step env st e).task_state = st.task_state ∨ (step env st e).task_state.has_task = true)
  ∧ ((step env st e).verdict_state = st.verdict_state
     ∨ ((step env st e).verdict_state.ready = false
        ∧ ((step env st e).scan_state.has_scan = false
           ∨ (step env st e).task_state.has_task = false))
     ∨ ((step env st e).verdict_state.ready = true
        ∧ (∃ b, (step env st e).verdict_state.safe = some b)
        ∧ (step env st e).scan_state.has_scan = true
        ∧ (step env st e).task_state.has_task = true)) := by
  cases e with
  | send text =>
      by_cases h0 : pyStrip text = ""
      · simp [step, handle_chat, h0, applyOutputs]
      · by_cases h1 : strStartsWith (pyLower (pyStrip text)) "task description:" = true
        · cases hs : env.save_task with
          | ok p =>
              by_cases hf : (st.scan_state.has_scan && true) = true
              · obtain ⟨b, hb⟩ := mfv_fired_verdict env st.scan_state ⟨true, p⟩
                  (st.history ++ [userText (pyStrip text),
                     assistantText (msgTaskEcho p)]) st.video_state ⟨false, none⟩
                  (by simpa using hf)
                simp [step, handle_chat, h0, h1, hs, applyOutputs, hb]
                exact Or.inr (by simpa using hf)
              · have hf' : (st.scan_state.has_scan
                    && (TaskState.mk true p).has_task) = false := by
                  simpa using hf
                simp [step, handle_chat, h0, h1, hs, applyOutputs,
                  mfv_not_fired _ _ _ _ _ _ hf']
                exact Or.inr (by simpa using hf)
          | error e' => simp [step, handle_chat, h0, h1, hs, applyOutputs]
        · by_cases h2 : strContainsSub (pyLower (pyStrip text)) "lower weight" = true
          · simp [step, handle_chat, h0, h1, h2, applyOutputs]
          · cases h3 : searchVideo (pyStrip text) with
            | some g =>
                simp [step, handle_chat, h0, h1, h2, h3, applyOutputs]
            | none =>
                by_cases h4 : (strContainsSub (pyLower (pyStrip text)) "/hide"
                    || strContainsSub (pyLower (pyStrip text)) "/stop"
                    || strContainsSub (pyLower (pyStrip text)) "hide video"
                    || strContainsSub (pyLower (pyStrip text)) "stop video") = true
                · simp [step, handle_chat, h0, h1, h2, h3, h4, applyOutputs]
                · by_cases h5 : strContainsSub (pyLower (pyStrip text)) "increase height" = true
                  · simp [step, handle_chat, h0, h1, h2, h3, h4, h5, applyOutputs]
                  · simp [step, handle_chat, h0, h1, h2, h3, h4, h5, applyOutputs]
  | upload contents filename =>
      by_cases ha : acceptedUpload filename = true
      · cases hs : env.save_scan with
        | ok p =>
            by_cases hf : (true && st.task_state.has_task) = true
            · obtain ⟨b, hb⟩ := mfv_fired_verdict env ⟨true, p⟩ st.task_state
                (st.history ++ [userFile filename, assistantText MSG_RECEIVED_SCAN])
                st.video_state ⟨false, none⟩ (by simpa using hf)
              simp [step, handle_chat, ha, hs, applyOutputs, hb]
              exact Or.inr (by simpa using hf)
            · have hf' : ((ScanState.mk true p).has_scan
                  && st.task_state.has_task) = false := by simpa using hf
              simp [step, handle_chat, ha, hs, applyOutputs,
                mfv_not_fired _ _ _ _ _ _ hf']
              exact Or.inr (by simpa using hf)
        | error e' => simp [step, handle_chat, ha, hs, applyOutputs]
      · simp [step, handle_chat, ha, applyOutputs]

/-- The session invariant: a ready verdict implies both flags are
set. -/
def FlagsInv (st : AppState) : Prop :=
  st.verdict_state.ready = true →
    st.scan_state.has_scan = true ∧ st.task_state.has_task = true

/-- The verdict-definiteness invariant: a ready verdict carries a
definite boolean. -/
def DefiniteInv (st : AppState) : Prop :=
  st.verdict_state.ready = true → ∃ b, st.verdict_state.safe = some b

/-- A step preserves the flags invariant. -/
lemma step_FlagsInv (env : Env) (st : AppState) (e : Event) (h : FlagsInv st) :
    FlagsInv (step env st e) := by
  obtain ⟨hscan, htask, hv⟩ := step_facts env st e
  intro hr
  rcases hv with hv | ⟨hf, _⟩ | ⟨_, _, h1, h2⟩
  · rw [hv] at hr
    obtain ⟨h1, h2⟩ := h hr
    constructor
    · rcases hscan with hs | hs
      · rw [hs]; exact h1
      · exact hs
    · rcases htask with ht | ht
      · rw [ht]; exact h2
      · exact ht
  · rw [hf] at hr; exact Bool.noConfusion hr
  · exact ⟨h1, h2⟩

/-- A step never resets a ready verdict (given the flags invariant). -/
lemma step_ready_mono (env : Env) (st : AppState) (e : Event) (h : FlagsInv st)
    (hr : st.verdict_state.ready = true) :
    (step env st e).verdict_state.ready = true := by
  obtain ⟨hscan, htask, hv⟩ := step_facts env st e
  obtain ⟨h1, h2⟩ := h hr
  rcases hv with hv | ⟨hf, hflags⟩ | ⟨hrd, _, _, _⟩
  · rw [hv]; exact hr
  · exfalso
    rcases hflags with hc | hc
    · rcases hscan with hs | hs
      · rw [hs, h1] at hc; exact Bool.noConfusion hc
      · rw [hs] at hc; exact Bool.noConfusion hc
    · rcases htask with ht | ht
      · rw [ht, h2] at hc; exact Bool.noConfusion hc
      · rw [ht] at hc; exact Bool.noConfusion hc
  · exact hrd

/-- A step preserves verdict definiteness. -/
lemma step_DefiniteInv (env : Env) (st : AppState) (e : Event) (h : DefiniteInv st) :
    DefiniteInv (step env st e) := by
  obtain ⟨_, _, hv⟩ := step_facts env st e
  intro hr
  rcases hv with hv | ⟨hf, _⟩ | ⟨_, hb, _, _⟩
  · rw [hv] at hr ⊢; exact h hr
  · rw [hf] at hr; exact Bool.noConfusion hr
  · exact hb

/-- A run preserves the flags invariant. -/
lemma run_FlagsInv (evs : List (Env × Event)) :
    ∀ st : AppState, FlagsInv st → FlagsInv (run st evs) := by
  induction evs with
  | nil => intro st h; exact h
  | cons p evs ih =>
      intro st h
      rw [run, List.foldl_cons]
      exact ih _ (step_FlagsInv p.1 st p.2 h)

/-- A run never resets a ready verdict. -/
lemma run_ready_mono (evs : List (Env × Event)) :
    ∀ st : AppState, FlagsInv st → st.verdict_state.ready = true →
      (run st evs).verdict_state.ready = true := by
  induction evs with
  | nil => intro st _ hr; exact hr
  | cons p evs ih =>
      intro st h hr
      rw [run, List.foldl_cons]
      exact ih _ (step_FlagsInv p.1 st p.2 h) (step_ready_mono p.1 st p.2 h hr)

/-- A run preserves verdict definiteness. -/
lemma run_DefiniteInv (evs : List (Env × Event)) :
    ∀ st : AppState, DefiniteInv st → DefiniteInv (run st evs) := by
  induction evs with
  | nil => intro st h; exact h
  | cons p evs ih =>
      intro st h
      rw [run, List.foldl_cons]
      exact ih _ (step_DefiniteInv p.1 st p.2 h)

/-- C1 counterexample: with `LI = 2.0` (numeric, above threshold) and a
non-numeric `SSPP_L4L5`, the evaluator returns Unsafe (`some false`),
not Indeterminate, because Python's `and` short-circuits before
converting `SSPP_L4L5`; the claim requires Indeterminate whenever
`SSPP_L4L5` is non-numeric. -/
theorem C1_counterexample :
    pyFloat (PyVal.nonNumeric 0) = none
    ∧ is_motion_safe ⟨some (PyVal.num 2), none, some (PyVal.nonNumeric 0)⟩ = some false :=
  ⟨rfl, rfl⟩

/-- C1 (amended): the verdict is Safe iff both metrics are present,
numeric, and within thresholds; it is Unsafe iff `LI` is present and
numeric, `SSPP_L4L5` is present and not the `None` object, and either
`LI > 1` (regardless of whether `SSPP_L4L5` is numeric) or `SSPP_L4L5`
is numeric and above `3400`; it is Indeterminate in all remaining
cases.  The stated threshold boundary cases hold. -/
theorem C1_theorem (s : Scores) :
    (is_motion_safe s = some true ↔
      ∃ l b, s.LI.bind pyFloat = some l ∧ s.SSPP_L4L5.bind pyFloat = some b
        ∧ l ≤ 1 ∧ b ≤ 3400)
  ∧ (is_motion_safe s = some false ↔
      ∃ l, s.LI.bind pyFloat = some l
        ∧ (∃ w, s.SSPP_L4L5 = some w ∧ w.isNoneObj = false)
        ∧ (1 < l ∨ ∃ b, s.SSPP_L4L5.bind pyFloat = some b ∧ 3400 < b))
  ∧ is_motion_safe ⟨some (PyVal.num 1), none, some (PyVal.num 3400)⟩ = some true
  ∧ is_motion_safe ⟨some (PyVal.num (mkRat 10001 10000)), none, some (PyVal.num 3400)⟩
      = some false
  ∧ is_motion_safe ⟨some (PyVal.num 1), none, some (PyVal.num (mkRat 340001 100))⟩
      = some false
  ∧ is_motion_safe ⟨none, none, some (PyVal.num 3000)⟩ = none := by
  obtain ⟨li, rwl, bv⟩ := s
  refine ⟨?_, ?_, by decide, by decide, by decide, by decide⟩
  · cases li with
    | none => simp [is_motion_safe]
    | some v =>
        cases bv with
        | none => simp [is_motion_safe]
        | some w =>
            cases v with
            | none => simp [is_motion_safe, pyFloat, PyVal.isNoneObj]
            | num l =>
                by_cases h : l ≤ 1
                · cases w with
                  | none => simp [is_motion_safe, pyFloat, PyVal.isNoneObj, h]
                  | num b => simp [is_motion_safe, pyFloat, PyVal.isNoneObj, h]
                  | nonNumeric t => simp [is_motion_safe, pyFloat, PyVal.isNoneObj, h]
                  | list xs => simp [is_motion_safe, pyFloat, PyVal.isNoneObj, h]
                · cases w with
                  | none => simp [is_motion_safe, pyFloat, PyVal.isNoneObj, h]
                  | num b => simp [is_motion_safe, pyFloat, PyVal.isNoneObj, h]
                  | nonNumeric t => simp [is_motion_safe, pyFloat, PyVal.isNoneObj, h]
                  | list xs => simp [is_motion_safe, pyFloat, PyVal.isNoneObj, h]
            | nonNumeric t => simp [is_motion_safe, pyFloat, PyVal.isNoneObj]
            | list xs => simp [is_motion_safe, pyFloat, PyVal.isNoneObj]
  · cases li with
    | none => simp [is_motion_safe]
    | some v =>
        cases bv with
        | none => simp [is_motion_safe]
        | some w =>
            cases v with
            | none => simp [is_motion_safe, pyFloat, PyVal.isNoneObj]
            | num l =>
                by_cases h : l ≤ 1
                · have h1 : ¬ 1 < l := not_lt.mpr h
                  cases w with
                  | none => simp [is_motion_safe, pyFloat, PyVal.isNoneObj, h, h1]
                  | num b =>
                      simp [is_motion_safe, pyFloat, PyVal.isNoneObj, h, h1, not_le]
                  | nonNumeric t =>
                      simp [is_motion_safe, pyFloat, PyVal.isNoneObj, h, h1]
                  | list xs => simp [is_motion_safe, pyFloat, PyVal.isNoneObj, h, h1]
                · have h2 : 1 < l := not_le.mp h
                  cases w with
                  | none => simp [is_motion_safe, pyFloat, PyVal.isNoneObj, h, h2]
                  | num b => simp [is_motion_safe, pyFloat, PyVal.isNoneObj, h, h2]
                  | nonNumeric t =>
                      simp [is_motion_safe, pyFloat, PyVal.isNoneObj, h, h2]
                  | list xs => simp [is_motion_safe, pyFloat, PyVal.isNoneObj, h, h2]
            | nonNumeric t => simp [is_motion_safe, pyFloat, PyVal.isNoneObj]
            | list xs => simp [is_motion_safe, pyFloat, PyVal.isNoneObj]

/-- C2: with both flags set and the metric source missing (verdict
indeterminate), the cross-check does NOT append the incomplete-metrics
message and does NOT set the indeterminate verdict: its `msg` and
`verdict_state` assignments for that case are overwritten by the
following `if verdict:`/`else` block, so the session ends with the
unsafe what-if message and `verdictState = (ready := true, safe :=
some false)`. -/
theorem C2_theorem :
    is_motion_safe (⟨none, none, none⟩ : Scores) = none
  ∧ maybe_finish_and_verdict envMissing ⟨true, "/assets/uploads/scan.glb"⟩
      ⟨true, "/assets/uploads/task.json"⟩ [] ⟨false, ""⟩ ⟨false, none⟩
      = ([assistantText MSG_UNSAFE], ⟨true, DEFAULT_VIDEO⟩, ⟨true, some false⟩)
  ∧ (run init_state demoTraceMissing).verdict_state = ⟨true, some false⟩
  ∧ (((run init_state demoTraceMissing).history.map Msg.content).contains MSG_INCOMPLETE)
      = false :=
  ⟨rfl, by decide, by decide, by decide⟩

/-- C4 counterexample to the original claim: a key whose source value
is a list with the requested index out of range (the empty list at
index 0) is returned as the raw list itself — a present value, not
absent as the claim requires. -/
theorem C4_counterexample :
    (load_niosh_scores (some ⟨some (PyVal.list []), none, none⟩) 0).LI
      = some (PyVal.list [])
    ∧ ((load_niosh_scores (some ⟨some (PyVal.list []), none, none⟩) 0).LI).isSome = true :=
  ⟨rfl, rfl⟩

/-- C4 (amended): the reader never fails: a missing or unloadable
source yields the all-absent MetricSet, each key is read independently
with `get_item`, and an absent attribute — or one holding the `None`
object, or a list/tuple whose selected in-range element is `None` —
maps to absent; any other present attribute maps to a present value: a
list/tuple with in-range non-`None` element yields that element, while
an out-of-range index or a non-sequence value yields the raw source
value itself (left for the downstream float conversion to reject). -/
theorem C4_theorem :
    (∀ idx, load_niosh_scores none idx = ⟨none, none, none⟩)
  ∧ (∀ m idx, load_niosh_scores (some m) idx
      = ⟨get_item m.LI idx, get_item m.RWL idx, get_item m.SSPP_L4L5 idx⟩)
  ∧ (∀ idx, get_item Option.none idx = Option.none)
  ∧ (∀ idx, get_item (some PyVal.none) idx = Option.none)
  ∧ (∀ xs idx (h : idx < xs.length), xs.get ⟨idx, h⟩ = PyVal.none →
      get_item (some (PyVal.list xs)) idx = Option.none)
  ∧ (∀ xs idx (h : idx < xs.length), xs.get ⟨idx, h⟩ ≠ PyVal.none →
      get_item (some (PyVal.list xs)) idx = some (xs.get ⟨idx, h⟩))
  ∧ (∀ xs idx, xs.length ≤ idx → get_item (some (PyVal.list xs)) idx = some (PyVal.list xs))
  ∧ (∀ q idx, get_item (some (PyVal.num q)) idx = some (PyVal.num q))
  ∧ (∀ t idx, get_item (some (PyVal.nonNumeric t)) idx = some (PyVal.nonNumeric t)) := by
  refine ⟨fun _ => rfl, fun _ _ => rfl, fun _ => rfl, fun _ => rfl, ?_, ?_, ?_,
    fun _ _ => rfl, fun _ _ => rfl⟩
  · intro xs idx h he
    simp only [get_item]
    rw [dif_pos h, he]
  · intro xs idx h hne
    simp only [get_item]
    rw [dif_pos h]
  · intro xs idx h
    simp only [get_item]
    rw [dif_neg (Nat.not_lt.mpr h)]

/-- C4 witness: the amended behaviour evaluated at the out-of-range
case, the in-range `None`-element case, and the in-range ordinary
case. -/
theorem C4_witness :
    get_item (some (PyVal.list [])) 0 = some (PyVal.list [])
  ∧ get_item (some (PyVal.list [PyVal.none])) 0 = Option.none
  ∧ get_item (some (PyVal.list [PyVal.num 5])) 0 = some (PyVal.num 5) :=
  ⟨C4_theorem.2.2.2.2.2.2.1 [] 0 (by decide),
   C4_theorem.2.2.2.2.1 [PyVal.none] 0 (by decide) rfl,
   C4_theorem.2.2.2.2.2.1 [PyVal.num 5] 0 (by decide) (fun hh => PyVal.noConfusion hh)⟩

/-- C7: the upload classifier accepts exactly the filenames whose
suffix, lowercased, lies in the fixed extension set, and the result is
a function of the suffix alone. -/
theorem C7_theorem :
    (∀ f, is_scan_file f = true ↔
      pyLower (pathSuffix f) ∈ ([".obj", ".stl", ".ply", ".glb", ".gltf", ".fbx",
        ".las", ".laz", ".e57", ".xyz", ".ptx", ".pts"] : List String))
  ∧ (∀ f g, pathSuffix f = pathSuffix g → is_scan_file f = is_scan_file g)
  ∧ is_scan_file "Site-Scan.GLB" = true
  ∧ is_scan_file "report.pdf" = false
  ∧ is_scan_file "scan.glb.tmp" = false := by
  refine ⟨?_, ?_, by decide, by decide, by decide⟩
  · intro f; simp [is_scan_file, SCAN_EXTS]
  · intro f g h; simp [is_scan_file, h]

/-- C7 witness: classification evaluated through the theorem at
concrete filenames. -/
theorem C7_witness :
    is_scan_file "LiDAR.E57" = true
  ∧ is_scan_file "upload.GLB" = is_scan_file "scan.GLB" :=
  ⟨(C7_theorem.1 "LiDAR.E57").mpr (by decide),
   C7_theorem.2.1 "upload.GLB" "scan.GLB" (by decide)⟩

/-- C8: a send event whose content strips to empty leaves every store
unchanged and does not clear the textarea: the post-state equals the
pre-state with the textarea still holding the typed text. -/
theorem C8_theorem (env : Env) (st : AppState) (text : String)
    (h : pyStrip text = "") :
    step env st (Event.send text) = { st with chat_text := text } := by
  obtain ⟨hist, ct, uc, uf, vid, scan, task, vst⟩ := st
  simp [step, handle_chat, h, applyOutputs]

/-- C8 witness: a whitespace-only send from the initial state. -/
theorem C8_witness :
    step envDemo init_state (Event.send " \t ") = { init_state with chat_text := " \t " } :=
  C8_theorem envDemo init_state " \t " (by decide)

/-- C5: when a durable write fails, the machine reports the underlying
reason in an assistant Message and leaves the corresponding flag state
(and the other stores) unchanged: for an accepted scan upload whose
persistence raises, and for a task description whose record persistence
raises. -/
theorem C5_theorem :
    (∀ (env : Env) (st : AppState) (contents fn e : String),
      env.save_scan = Except.error e →
      acceptedUpload (some fn) = true →
      (step env st (Event.upload contents (some fn))).scan_state = st.scan_state
      ∧ (step env st (Event.upload contents (some fn))).task_state = st.task_state
      ∧ (step env st (Event.upload contents (some fn))).history
          = st.history ++ [assistantText ("Failed to save upload: " ++ e)]
      ∧ (step env st (Event.upload contents (some fn))).verdict_state = st.verdict_state
      ∧ (step env st (Event.upload contents (some fn))).video_state = st.video_state)
  ∧ (∀ (env : Env) (st : AppState) (text e : String),
      env.save_task = Except.error e →
      strStartsWith (pyLower (pyStrip text)) "task description:" = true →
      (step env st (Event.send text)).task_state = st.task_state
      ∧ (step env st (Event.send text)).scan_state = st.scan_state
      ∧ (step env st (Event.send text)).history
          = st.history ++ [userText (pyStrip text),
              assistantText ("Could not save task description: " ++ e)]
      ∧ (step env st (Event.send text)).verdict_state = st.verdict_state
      ∧ (step env st (Event.send text)).video_state = st.video_state) := by
  constructor
  · intro env st contents fn e h1 h2
    simp [step, handle_chat, h1, h2, applyOutputs]
  · intro env st text e h1 h2
    have h0 : ¬ pyStrip text = "" := by
      intro hz
      rw [hz] at h2
      exact Bool.noConfusion (by exact h2 : strStartsWith (pyLower "") "task description:" = true)
    simp [step, handle_chat, h0, h1, h2, applyOutputs]

/-- C5 witness: a failing write for a scan upload and for a task
description, from the initial state. -/
theorem C5_witness :
    (step envWriteFail init_state
        (Event.upload "data:application/octet-stream;base64,AAAA" (some "scan.glb"))).history
      = [assistantText "Failed to save upload: No space left on device"]
    ∧ (step envWriteFail init_state
        (Event.upload "data:application/octet-stream;base64,AAAA" (some "scan.glb"))).scan_state
      = init_state.scan_state
    ∧ (step envWriteFail init_state (Event.send "Task description: lift a box")).task_state
      = init_state.task_state :=
  ⟨((C5_theorem.1 envWriteFail init_state "data:application/octet-stream;base64,AAAA"
      "scan.glb" "No space left on device" rfl (by decide)).2.2.1),
   ((C5_theorem.1 envWriteFail init_state "data:application/octet-stream;base64,AAAA"
      "scan.glb" "No space left on device" rfl (by decide)).1),
   ((C5_theorem.2 envWriteFail init_state "Task description: lift a box"
      "No space left on device" rfl (by decide)).1)⟩

/-- C6 counterexample to the original claim: "/play lower weight" is a
non-empty message matching the play-video directive (the regex
captures "lower weight"), yet the machine dispatches it to the earlier
lower-weight what-if branch: the video directive stays hidden and the
reply is the what-if placeholder, not "Playing: ...". -/
theorem C6_counterexample :
    searchVideo "/play lower weight" = some (some "lower weight".toList)
  ∧ (step envDemo init_state (Event.send "/play lower weight")).video_state = ⟨false, ""⟩
  ∧ (step envDemo init_state (Event.send "/play lower weight")).history
      = [userText "/play lower weight", assistantText MSG_LOWER_WEIGHT] :=
  ⟨by decide, by decide, by decide⟩

/-- C6 (amended): a non-empty message dispatched to the play-video
branch — matching the directive and not captured by the earlier
task-description and lower-weight checks — resolves its path fragment
exactly as specified (configured default when empty, verbatim when an
absolute asset path, normalised when a relative asset path, otherwise
under the motion-asset base directory), flips the video directive to
showing, and replies with the resolved source; in particular sending
"/video myclip.mp4" plays
"/assets/static_dash/mocap/exp1/myclip.mp4". -/
theorem C6_theorem :
    (∀ (env : Env) (st : AppState) (text : String) (g : Option (List Char)),
      pyStrip text ≠ "" →
      strStartsWith (pyLower (pyStrip text)) "task description:" = false →
      strContainsSub (pyLower (pyStrip text)) "lower weight" = false →
      searchVideo (pyStrip text) = some g →
      (step env st (Event.send text)).video_state
        = ⟨true,
            if pyStrip (String.mk (g.getD [])) = "" then DEFAULT_VIDEO
            else if strStartsWith (pyStrip (String.mk (g.getD []))) "/assets/" then
              pyStrip (String.mk (g.getD []))
            else if strStartsWith (pyStrip (String.mk (g.getD []))) "assets/" then
              "/" ++ pyStrip (String.mk (g.getD []))
            else "/assets/static_dash/mocap/exp1/" ++ pyStrip (String.mk (g.getD []))⟩
      ∧ (step env st (Event.send text)).history
          = st.history ++ [userText (pyStrip text),
              assistantText ("Playing: " ++ (step env st (Event.send text)).video_state.src)])
  ∧ (step envDemo init_state (Event.send "/video myclip.mp4")).video_state
      = ⟨true, "/assets/static_dash/mocap/exp1/myclip.mp4"⟩
  ∧ (step envDemo init_state (Event.send "/video myclip.mp4")).history
      = [userText "/video myclip.mp4",
         assistantText "Playing: /assets/static_dash/mocap/exp1/myclip.mp4"] := by
  refine ⟨?_, by decide, by decide⟩
  intro env st text g h0 h1 h2 h3
  simp [step, handle_chat, h0, h1, h2, h3, applyOutputs]

/-- C6 witness: the directive theorem applied to a concrete message
whose fragment is a relative asset path. -/
theorem C6_witness :
    (step envDemo init_state (Event.send "/play assets/demoClip.mp4")).video_state
      = ⟨true, "/assets/demoClip.mp4"⟩
    ∧ (step envDemo init_state (Event.send "/play assets/demoClip.mp4")).history
      = [userText "/play assets/demoClip.mp4",
         assistantText "Playing: /assets/demoClip.mp4"] := by
  have h := C6_theorem.1 envDemo init_state "/play assets/demoClip.mp4"
    (some "assets/demoClip.mp4".toList) (by decide) (by decide) (by decide) (by decide)
  exact ⟨h.1.trans (by decide), h.2.trans (by decide)⟩

/-- C9: a non-empty message matching none of the patterns appends the
user Message and exactly one filler assistant Message, and changes no
store besides the history. -/
theorem C9_theorem (env : Env) (st : AppState) (text : String)
    (h0 : pyStrip text ≠ "")
    (h1 : strStartsWith (pyLower (pyStrip text)) "task description:" = false)
    (h2 : strContainsSub (pyLower (pyStrip text)) "lower weight" = false)
    (h3 : searchVideo (pyStrip text) = none)
    (h4 : strContainsSub (pyLower (pyStrip text)) "/hide" = false)
    (h5 : strContainsSub (pyLower (pyStrip text)) "/stop" = false)
    (h6 : strContainsSub (pyLower (pyStrip text)) "hide video" = false)
    (h7 : strContainsSub (pyLower (pyStrip text)) "stop video" = false)
    (h8 : strContainsSub (pyLower (pyStrip text)) "increase height" = false) :
    (step env st (Event.send text)).history
      = st.history ++ [userText (pyStrip text), assistantText MSG_FILLER]
    ∧ (step env st (Event.send text)).scan_state = st.scan_state
    ∧ (step env st (Event.send text)).task_state = st.task_state
    ∧ (step env st (Event.send text)).video_state = st.video_state
    ∧ (step env st (Event.send text)).verdict_state = st.verdict_state := by
  simp [step, handle_chat, h0, h1, h2, h3, h4, h5, h6, h7, h8, applyOutputs]

/-- C3: on every session from the initial state, the verdict becomes
ready only when both the scan and the task flag hold, and once ready it
stays ready under every further event sequence. -/
theorem C3_theorem (evs : List (Env × Event)) :
    ((run init_state evs).verdict_state.ready = true →
        (run init_state evs).scan_state.has_scan = true
        ∧ (run init_state evs).task_state.has_task = true)
  ∧ ((run init_state evs).verdict_state.ready = true →
        ∀ more : List (Env × Event),
          (run (run init_state evs) more).verdict_state.ready = true) := by
  have h0 : FlagsInv init_state := by intro h; exact Bool.noConfusion h
  have hInv : FlagsInv (run init_state evs) := run_FlagsInv evs init_state h0
  exact ⟨hInv, fun hr more => run_ready_mono more _ hInv hr⟩

/-- C3 witness: the demonstration session reaches a ready verdict with
both flags set, and stays ready after a further ordinary message. -/
theorem C3_witness :
    ((run init_state demoTrace).scan_state.has_scan = true
      ∧ (run init_state demoTrace).task_state.has_task = true)
    ∧ (run (run init_state demoTrace) [(envDemo, Event.send "hello")]).verdict_state.ready
        = true :=
  ⟨(C3_theorem demoTrace).1 (by decide),
   (C3_theorem demoTrace).2 (by decide) [(envDemo, Event.send "hello")]⟩

/-- C10: in every state the session reaches, a ready verdict carries a
definite boolean safety classification, never the indeterminate value. -/
theorem C10_theorem (evs : List (Env × Event)) :
    (run init_state evs).verdict_state.ready = true →
      ∃ b, (run init_state evs).verdict_state.safe = some b := by
  have h0 : DefiniteInv init_state := by intro h; exact Bool.noConfusion h
  exact run_DefiniteInv evs init_state h0

/-- C10 witness: the demonstration session's ready verdict is a definite
boolean. -/
theorem C10_witness :
    ∃ b, (run init_state demoTrace).verdict_state.safe = some b :=
  C10_theorem demoTrace (by decide)

/-- C9 witness: an ordinary chat message from the initial state. -/
theorem C9_witness :
    (step envDemo init_state (Event.send "hello there")).history
      = [userText "hello there", assistantText MSG_FILLER]
    ∧ (step envDemo init_state (Event.send "hello there")).verdict_state
      = init_state.verdict_state :=
  ⟨(C9_theorem envDemo init_state "hello there" (by decide) (by decide) (by decide)
      (by decide) (by decide) (by decide) (by decide) (by decide) (by decide)).1,
   (C9_theorem envDemo init_state "hello there" (by decide) (by decide) (by decide)
      (by decide) (by decide) (by decide) (by decide) (by decide) (by decide)).2.2.2.2⟩

end ErgoDash
